import Mathlib

/-!
Verification of the spring-animations motion engine.

The definitions below are a shallow embedding, over the real numbers, of the
`Spring` class in the repository (the variant that owns the motion-physics
logic): the preset table, the constructor's three configuration paths,
`initFromDurationAndBounce`, `calculateBounceFromDamping`,
`calculateSpringValue` and `generateBezierPoints`.  JavaScript floating-point
numbers are modelled as reals; `Math.sqrt` is modelled by `Real.sqrt` (total,
with value `0` on negative arguments).
-/

namespace SpringAnimations

open Real

/-- The canonical physical model produced by the resolver: the five numeric
fields the `Spring` constructor assigns. -/
structure SpringModel where
  mass : ℝ
  stiffness : ℝ
  damping : ℝ
  duration : ℝ
  bounce : ℝ

/-- Embedding of `initFromDurationAndBounce({duration, bounce})`:
mass is fixed at 1, `stiffness = ((2π)/duration)²`, and damping is derived
piecewise on the sign of bounce, exactly as in the source. -/
noncomputable def initFromDurationAndBounce (duration bounce : ℝ) : SpringModel :=
  { duration := duration
    bounce := bounce
    mass := 1
    stiffness := ((2 * π) / duration) ^ 2
    damping :=
      if 0 ≤ bounce then 1 - 4 * π * bounce / duration
      else (4 * π) / (duration + 4 * π * bounce) }

/-- Embedding of `calculateBounceFromDamping()` (reads mass, stiffness and
damping of the instance). -/
noncomputable def calculateBounceFromDamping (mass stiffness damping : ℝ) : ℝ :=
  let criticalDamping := 2 * Real.sqrt (mass * stiffness)
  (criticalDamping - damping) / criticalDamping

/-- Embedding of the static `PRESETS` table: an object lookup on the preset
name, `none` for any unknown key. -/
noncomputable def PRESETS (name : String) : Option (ℝ × ℝ) :=
  if name = "bouncy" then some (0.7, 0.4)
  else if name = "smooth" then some (0.5, 0)
  else if name = "flattened" then some (0.4, -0.2)
  else none

/-- A constructor argument: either a preset-name string or a config object.
Each numeric key of the object may be present or absent (`Option`). -/
inductive SpringConfig where
  | preset (name : String)
  | obj (mass stiffness damping duration bounce : Option ℝ)

/-- JavaScript `config.key || fallback` on an optional numeric field: absent
keys and the falsy number `0` both yield the fallback. -/
noncomputable def orDefault (value : Option ℝ) (fallback : ℝ) : ℝ :=
  match value with
  | none => fallback
  | some v => if v = 0 then fallback else v

/-- `Math.max(-1, Math.min(1, b))`, the clamp applied on the
duration-and-bounce configuration path. -/
noncomputable def clampBounce (bounce : ℝ) : ℝ :=
  max (-1) (min 1 bounce)

/-- Embedding of the `Spring` constructor (the `resolveSpringModel` operation
of the spec): a string is looked up in `PRESETS` (throwing on an unknown
name); an object carrying all of mass, stiffness and damping takes the
physical-parameter path; anything else takes the duration-and-bounce path
with defaults `duration = 0.5`, `bounce = 0` and the clamp. -/
noncomputable def resolveSpringModel : SpringConfig → Except String SpringModel
  | .preset name =>
    match PRESETS name with
    | some (duration, bounce) => .ok (initFromDurationAndBounce duration bounce)
    | none => .error ("Unknown preset: " ++ name)
  | .obj mass stiffness damping duration bounce =>
    match mass, stiffness, damping with
    | some m, some s, some d =>
      .ok { mass := m, stiffness := s, damping := d
            duration := 2 * π / Real.sqrt (s / m)
            bounce := calculateBounceFromDamping m s d }
    | _, _, _ =>
      .ok (initFromDurationAndBounce (orDefault duration 0.5)
            (clampBounce (orDefault bounce 0)))

/-- Embedding of `calculateSpringValue(t)`: normalize the elapsed time by the
duration, then select the regime on the sign of `bounce`. -/
noncomputable def calculateSpringValue (s : SpringModel) (t : ℝ) : ℝ :=
  let normalizedTime := t / s.duration
  if 0 < s.bounce then
    let omega := Real.sqrt (s.stiffness / s.mass)
    let zeta := s.damping / (2 * Real.sqrt (s.mass * s.stiffness))
    Real.exp (-zeta * omega * normalizedTime) *
      Real.cos (omega * Real.sqrt (1 - zeta * zeta) * normalizedTime)
  else
    let a := s.damping + Real.sqrt (s.damping * s.damping - 4 * s.stiffness)
    let b := s.damping - Real.sqrt (s.damping * s.damping - 4 * s.stiffness)
    (Real.exp (-a * normalizedTime) + Real.exp (-b * normalizedTime)) / 2

/-- Embedding of `generateBezierPoints()`: the four control points, derived
from `bounce` alone. -/
noncomputable def generateBezierPoints (s : SpringModel) : ℝ × ℝ × ℝ × ℝ :=
  if s.bounce ≤ 0 then
    (0.16 + 0.12 * |s.bounce|, 0, 0.28 + 0.12 * |s.bounce|, 1)
  else
    let overshoot := s.bounce * 0.2
    (0.2, 0.2 + overshoot, 0.8, 1 + overshoot)

/-- The motion-evaluator formula transcribed from the spec's words, to be
compared with `calculateSpringValue`: `ω = sqrt(stiffness/mass)`,
`ζ = damping / (2·sqrt(mass·stiffness))`, underdamped progress
`exp(-ζω t')·cos(ω·sqrt(1-ζ²)·t')`; overdamped roots
`a, b = damping ± sqrt(damping² - 4·stiffness)` and progress
`(exp(-a·t') + exp(-b·t'))/2`, with `t' = elapsed / duration`. -/
noncomputable def specEvaluate (s : SpringModel) (t : ℝ) : ℝ :=
  let tNorm := t / s.duration
  if 0 < s.bounce then
    let omega := Real.sqrt (s.stiffness / s.mass)
    let zeta := s.damping / (2 * Real.sqrt (s.mass * s.stiffness))
    Real.exp (-zeta * omega * tNorm) *
      Real.cos (omega * Real.sqrt (1 - zeta ^ 2) * tNorm)
  else
    let a := s.damping + Real.sqrt (s.damping ^ 2 - 4 * s.stiffness)
    let b := s.damping - Real.sqrt (s.damping ^ 2 - 4 * s.stiffness)
    (Real.exp (-a * tNorm) + Real.exp (-b * tNorm)) / 2

/-- Helper: at elapsed time 0 the spring value is exactly 1 in both regimes. -/
lemma calculateSpringValue_at_zero (s : SpringModel) :
    calculateSpringValue s 0 = 1 := by
  unfold calculateSpringValue
  simp [zero_div, mul_zero, Real.exp_zero, Real.cos_zero]

/-- C1: for every SpringModel and every elapsed time `t ≥ 0`,
`calculateSpringValue` first normalizes time as `t' = t / duration` and then
selects the regime by the sign of `bounce`; in the underdamped case it equals
`exp(-ζω t')·cos(ω·sqrt(1-ζ²)·t')` with `ω = sqrt(stiffness/mass)` and
`ζ = damping / (2·sqrt(mass·stiffness))`, and in the other case
`(exp(-a t') + exp(-b t'))/2` with `a, b = damping ± sqrt(damping² - 4·stiffness)`
— that is, it agrees with the formula transcribed from the spec. -/
theorem calculateSpringValue_matches_spec (s : SpringModel) (t : ℝ)
    (_ht : 0 ≤ t) : calculateSpringValue s t = specEvaluate s t := by
  unfold calculateSpringValue specEvaluate
  simp only [pow_two]

/-- Witness for C1 at a concrete model and `t = 1`. -/
theorem calculateSpringValue_matches_spec_witness :
    (0 : ℝ) ≤ 1 ∧
      calculateSpringValue
          { mass := 1, stiffness := 4, damping := 1, duration := 1, bounce := 0.5 } 1
        = specEvaluate
          { mass := 1, stiffness := 4, damping := 1, duration := 1, bounce := 0.5 } 1 :=
  ⟨by norm_num, calculateSpringValue_matches_spec _ 1 (by norm_num)⟩

/-- C2: on the duration-and-bounce path with duration `d > 0` and bounce
`b ∈ [-1, 1]`, the resulting model has `mass = 1`,
`stiffness = (2π/d)²`, and `damping = 1 - 4π·b/d` when `b ≥ 0`,
`damping = 4π / (d + 4π·b)` when `b < 0`. -/
theorem initFromDurationAndBounce_fields (d b : ℝ) (_hd : 0 < d)
    (_hb1 : -1 ≤ b) (_hb2 : b ≤ 1) :
    (initFromDurationAndBounce d b).mass = 1 ∧
    (initFromDurationAndBounce d b).stiffness = (2 * π / d) ^ 2 ∧
    (0 ≤ b → (initFromDurationAndBounce d b).damping = 1 - 4 * π * b / d) ∧
    (b < 0 → (initFromDurationAndBounce d b).damping = 4 * π / (d + 4 * π * b)) := by
  refine ⟨rfl, rfl, fun h => ?_, fun h => ?_⟩
  · simp [initFromDurationAndBounce, h]
  · simp [initFromDurationAndBounce, not_le.mpr h]

/-- Witness for C2 at `d = 0.7`, `b = 0.4`. -/
theorem initFromDurationAndBounce_fields_witness :
    (initFromDurationAndBounce 0.7 0.4).mass = 1 ∧
    (initFromDurationAndBounce 0.7 0.4).stiffness = (2 * π / 0.7) ^ 2 ∧
    ((0 : ℝ) ≤ 0.4 →
      (initFromDurationAndBounce 0.7 0.4).damping = 1 - 4 * π * 0.4 / 0.7) ∧
    ((0.4 : ℝ) < 0 →
      (initFromDurationAndBounce 0.7 0.4).damping = 4 * π / (0.7 + 4 * π * 0.4)) :=
  initFromDurationAndBounce_fields 0.7 0.4 (by norm_num) (by norm_num) (by norm_num)

/-- C4: the claim that evaluation at elapsed time 0 returns exactly 1 fails
on the program.  The resolver's own `smooth` preset produces the model
`(duration 0.5, bounce 0)` with `damping = 1` and `stiffness = (4π)²`; it
takes the `bounce ≤ 0` regime, where the code feeds
`damping·damping - 4·stiffness = 1 - 64π² < 0` to `Math.sqrt` — under IEEE
arithmetic that is NaN and propagates (`NaN·0 = NaN`, `exp(NaN) = NaN`), so
the JS returns NaN at `t = 0`, not 1.  Only in the exact real-arithmetic
idealization (where the negative-argument square root is 0) does the value
at 0 equal 1, as the last conjunct records. -/
theorem evaluate_at_zero_nan_path :
    resolveSpringModel (.preset "smooth") = .ok (initFromDurationAndBounce 0.5 0) ∧
    ¬ 0 < (initFromDurationAndBounce 0.5 0).bounce ∧
    (initFromDurationAndBounce 0.5 0).damping * (initFromDurationAndBounce 0.5 0).damping
        - 4 * (initFromDurationAndBounce 0.5 0).stiffness < 0 ∧
    calculateSpringValue (initFromDurationAndBounce 0.5 0) 0 = 1 := by
  have hdmp : (initFromDurationAndBounce 0.5 0).damping = 1 := by
    unfold initFromDurationAndBounce
    rw [if_pos (le_refl (0:ℝ))]
    norm_num
  have hS : (initFromDurationAndBounce 0.5 0).stiffness = (4 * π) ^ 2 := by
    unfold initFromDurationAndBounce
    rw [show 2 * π / (0.5:ℝ) = 4 * π by field_simp; ring]
  refine ⟨?_, ?_, ?_, calculateSpringValue_at_zero _⟩
  · simp [resolveSpringModel, PRESETS]
  · norm_num [initFromDurationAndBounce]
  · rw [hdmp, hS]
    nlinarith [Real.pi_gt_three]

/-- C6: `generateBezierPoints` returns exactly the documented control points
— `(0.16 + 0.12·|bounce|, 0, 0.28 + 0.12·|bounce|, 1)` for `bounce ≤ 0` and
`(0.2, 0.2 + overshoot, 0.8, 1 + overshoot)` with `overshoot = bounce·0.2`
for `bounce > 0` — and is a function of `bounce` alone: two models with the
same bounce produce identical control points. -/
theorem generateBezierPoints_spec :
    (∀ s : SpringModel,
      generateBezierPoints s =
        if s.bounce ≤ 0 then
          (0.16 + 0.12 * |s.bounce|, 0, 0.28 + 0.12 * |s.bounce|, 1)
        else
          (0.2, 0.2 + s.bounce * 0.2, 0.8, 1 + s.bounce * 0.2)) ∧
    (∀ s₁ s₂ : SpringModel, s₁.bounce = s₂.bounce →
      generateBezierPoints s₁ = generateBezierPoints s₂) := by
  constructor
  · intro s
    rfl
  · intro s₁ s₂ h
    unfold generateBezierPoints
    rw [h]

/-- Witness for C6: two models sharing `bounce = 0.3` but differing in every
other field produce the same control points. -/
theorem generateBezierPoints_spec_witness :
    ({ mass := 1, stiffness := 2, damping := 3, duration := 4,
        bounce := 0.3 } : SpringModel).bounce
      = ({ mass := 5, stiffness := 6, damping := 7, duration := 8,
            bounce := 0.3 } : SpringModel).bounce ∧
    generateBezierPoints
        { mass := 1, stiffness := 2, damping := 3, duration := 4, bounce := 0.3 }
      = generateBezierPoints
        { mass := 5, stiffness := 6, damping := 7, duration := 8, bounce := 0.3 } :=
  ⟨rfl, generateBezierPoints_spec.2 _ _ rfl⟩

/-- C7: resolving the preset name `"bouncy"` yields a model with duration 0.7,
bounce 0.4 and mass 1; every known preset deterministically resolves to its
documented `(duration, bounce)` pair; an unknown name such as `"giggly"` fails
with an error and produces no model. -/
theorem resolve_presets :
    resolveSpringModel (.preset "bouncy")
        = .ok (initFromDurationAndBounce 0.7 0.4) ∧
    (initFromDurationAndBounce 0.7 0.4).duration = 0.7 ∧
    (initFromDurationAndBounce 0.7 0.4).bounce = 0.4 ∧
    (initFromDurationAndBounce 0.7 0.4).mass = 1 ∧
    resolveSpringModel (.preset "smooth")
        = .ok (initFromDurationAndBounce 0.5 0) ∧
    resolveSpringModel (.preset "flattened")
        = .ok (initFromDurationAndBounce 0.4 (-0.2)) ∧
    resolveSpringModel (.preset "giggly") = .error "Unknown preset: giggly" := by
  refine ⟨?_, rfl, rfl, rfl, ?_, ?_, ?_⟩ <;>
    simp [resolveSpringModel, PRESETS]

/-- C8: the physical-parameter path keeps mass, stiffness and damping as
given, derives `duration = 2π / sqrt(stiffness/mass)` and
`bounce = (criticalDamping - damping) / criticalDamping` with
`criticalDamping = 2·sqrt(mass·stiffness)`; and concretely for
`{mass: 1, stiffness: 100, damping: 10}` the duration is within 0.001 of
0.628 and the bounce lies in `[-1, 1]`. -/
theorem resolve_physics :
    (∀ (m s d : ℝ) (du bo : Option ℝ),
      resolveSpringModel (.obj (some m) (some s) (some d) du bo)
        = .ok { mass := m, stiffness := s, damping := d
                duration := 2 * π / Real.sqrt (s / m)
                bounce := (2 * Real.sqrt (m * s) - d) / (2 * Real.sqrt (m * s)) }) ∧
    (∀ model : SpringModel,
      resolveSpringModel (.obj (some 1) (some 100) (some 10) none none)
          = .ok model →
        |model.duration - 0.628| < 0.001 ∧ -1 ≤ model.bounce ∧ model.bounce ≤ 1) := by
  have hs : Real.sqrt 100 = 10 := by
    rw [show (100 : ℝ) = 10 ^ 2 by norm_num, Real.sqrt_sq (by norm_num : (0:ℝ) ≤ 10)]
  constructor
  · intro m s d du bo
    rfl
  · intro model h
    simp only [resolveSpringModel, calculateBounceFromDamping, Except.ok.injEq] at h
    subst h
    norm_num [hs]
    rw [abs_lt]
    constructor <;> nlinarith [Real.pi_gt_d4, Real.pi_lt_d4]

/-- Witness for C8: the concrete-scenario conjunct applied to the model the
resolver actually returns for `{mass: 1, stiffness: 100, damping: 10}`. -/
theorem resolve_physics_witness :
    |({ mass := 1, stiffness := 100, damping := 10
        duration := 2 * π / Real.sqrt (100 / 1)
        bounce := calculateBounceFromDamping 1 100 10 } : SpringModel).duration
        - 0.628| < 0.001 ∧
    -1 ≤ ({ mass := 1, stiffness := 100, damping := 10
            duration := 2 * π / Real.sqrt (100 / 1)
            bounce := calculateBounceFromDamping 1 100 10 } : SpringModel).bounce ∧
    ({ mass := 1, stiffness := 100, damping := 10
       duration := 2 * π / Real.sqrt (100 / 1)
       bounce := calculateBounceFromDamping 1 100 10 } : SpringModel).bounce ≤ 1 :=
  resolve_physics.2 _ rfl

/-- C10: a config holding only a strict subset of `{mass, stiffness, damping}`
(here: stiffness alone) raises no error; it resolves through the
duration-and-bounce path with the defaults `duration = 0.5`, `bounce = 0`,
and the supplied stiffness is ignored — the resolved stiffness is
`(2π/0.5)²` whatever value was passed. -/
theorem resolve_subset_defaults (s : ℝ) :
    resolveSpringModel (.obj none (some s) none none none)
        = .ok (initFromDurationAndBounce 0.5 0) ∧
    (initFromDurationAndBounce 0.5 0).duration = 0.5 ∧
    (initFromDurationAndBounce 0.5 0).bounce = 0 ∧
    (initFromDurationAndBounce 0.5 0).stiffness = (2 * π / 0.5) ^ 2 := by
  have hc : clampBounce (orDefault none 0) = 0 := by
    unfold clampBounce orDefault
    rw [min_eq_right (by norm_num : (0:ℝ) ≤ 1), max_eq_right (by norm_num : (-1:ℝ) ≤ 0)]
  refine ⟨?_, rfl, rfl, rfl⟩
  simp only [resolveSpringModel, hc]
  rfl

/-- Helper: the clamp really lands in `[-1, 1]`. -/
lemma clampBounce_mem (b : ℝ) : -1 ≤ clampBounce b ∧ clampBounce b ≤ 1 :=
  ⟨le_max_left _ _, max_le (by norm_num) (min_le_left _ _)⟩

/-- C3: the two derivation paths do not round-trip.  Resolving
`{mass: 1, stiffness: 100, damping: 10}` gives `duration = 2π/10` and
`bounce = 0.5`; re-deriving from that `(duration, bounce)` pair recovers the
stiffness exactly but returns damping `-9` instead of `10`, far outside the
claimed `1e-6` relative tolerance. -/
theorem roundtrip_damping_bug :
    resolveSpringModel (.obj (some 1) (some 100) (some 10) none none)
        = .ok { mass := 1, stiffness := 100, damping := 10
                duration := 2 * π / 10, bounce := 0.5 } ∧
    (initFromDurationAndBounce (2 * π / 10) 0.5).stiffness = 100 ∧
    (initFromDurationAndBounce (2 * π / 10) 0.5).damping = -9 ∧
    ¬ |(initFromDurationAndBounce (2 * π / 10) 0.5).damping - 10|
        ≤ 1e-6 * 10 := by
  have hs : Real.sqrt 100 = 10 := by
    rw [show (100 : ℝ) = 10 ^ 2 by norm_num, Real.sqrt_sq (by norm_num : (0:ℝ) ≤ 10)]
  have key : 2 * π / (2 * π / 10) = 10 := by
    field_simp
  have hd : (initFromDurationAndBounce (2 * π / 10) 0.5).damping = -9 := by
    unfold initFromDurationAndBounce
    rw [if_pos (by norm_num : (0:ℝ) ≤ 0.5)]
    rw [show (4:ℝ) * π * 0.5 = 2 * π by ring, key]
    norm_num
  refine ⟨?_, ?_, hd, ?_⟩
  · simp only [resolveSpringModel, calculateBounceFromDamping]
    norm_num [hs, SpringModel.mk.injEq]
  · unfold initFromDurationAndBounce
    rw [key]
    norm_num
  · rw [hd]
    norm_num

/-- C5: the claimed shape properties fail on the code.  The model built on
the duration-and-bounce path from the repository's own `flattened` preset
`(duration 0.4, bounce -0.2)` has `bounce ≤ 0`, starts at value 1, yet at
elapsed time `0.4` (one duration) its value exceeds 1 — the curve grows away
from the settled value instead of decaying monotonically toward it. -/
theorem flattened_model_grows :
    (initFromDurationAndBounce 0.4 (-0.2)).bounce ≤ 0 ∧
    calculateSpringValue (initFromDurationAndBounce 0.4 (-0.2)) 0 = 1 ∧
    1 < calculateSpringValue (initFromDurationAndBounce 0.4 (-0.2)) 0.4 := by
  have hb : (initFromDurationAndBounce 0.4 (-0.2)).bounce = -0.2 := rfl
  have hdur : (initFromDurationAndBounce 0.4 (-0.2)).duration = 0.4 := rfl
  have hD : (initFromDurationAndBounce 0.4 (-0.2)).damping
      = 4 * π / (0.4 - 0.8 * π) := by
    unfold initFromDurationAndBounce
    rw [if_neg (by norm_num : ¬ (0:ℝ) ≤ -0.2)]
    ring_nf
  have hS : (initFromDurationAndBounce 0.4 (-0.2)).stiffness = (5 * π) ^ 2 := by
    unfold initFromDurationAndBounce
    rw [show 2 * π / (0.4:ℝ) = 5 * π by field_simp; ring]
  have hqneg : (0.4:ℝ) - 0.8 * π ≤ -2 := by nlinarith [Real.pi_gt_three]
  have hq2 : (4:ℝ) ≤ ((0.4:ℝ) - 0.8 * π) ^ 2 := by nlinarith
  have hq2pos : (0:ℝ) < ((0.4:ℝ) - 0.8 * π) ^ 2 := lt_of_lt_of_le (by norm_num) hq2
  have hroots : (4 * π / (0.4 - 0.8 * π)) * (4 * π / (0.4 - 0.8 * π))
      - 4 * (5 * π) ^ 2 ≤ 0 := by
    have hfrac : (4 * π / (0.4 - 0.8 * π)) * (4 * π / (0.4 - 0.8 * π))
        = 16 * π ^ 2 / ((0.4:ℝ) - 0.8 * π) ^ 2 := by
      rw [div_mul_div_comm]
      congr 1 <;> ring
    rw [hfrac, sub_nonpos, div_le_iff₀ hq2pos]
    nlinarith [hq2, sq_nonneg π, Real.pi_gt_three]
  have hsqrt : Real.sqrt ((4 * π / (0.4 - 0.8 * π)) * (4 * π / (0.4 - 0.8 * π))
      - 4 * (5 * π) ^ 2) = 0 := Real.sqrt_eq_zero'.mpr hroots
  refine ⟨by rw [hb]; norm_num, calculateSpringValue_at_zero _, ?_⟩
  simp only [calculateSpringValue, hb, hdur, hD, hS]
  rw [if_neg (by norm_num : ¬ (0:ℝ) < -0.2)]
  rw [show (0.4:ℝ) / 0.4 = 1 by norm_num, hsqrt]
  rw [add_zero, sub_zero, mul_one, add_self_div_two, Real.one_lt_exp_iff,
    neg_pos]
  exact div_neg_of_pos_of_neg (by positivity) (by nlinarith [Real.pi_gt_three])

/-- C9 counterexample: the physical-parameter path performs no clamp — the
config `{mass: 1, stiffness: 1, damping: 10}` resolves to a model whose
bounce is `-4`, outside `[-1, 1]`. -/
theorem physics_path_bounce_escapes_range :
    resolveSpringModel (.obj (some 1) (some 1) (some 10) none none)
        = .ok { mass := 1, stiffness := 1, damping := 10
                duration := 2 * π / 1, bounce := -4 } ∧
    ¬ (-1 : ℝ) ≤ ({ mass := 1, stiffness := 1, damping := 10
                    duration := 2 * π / 1, bounce := -4 } : SpringModel).bounce := by
  constructor
  · simp only [resolveSpringModel, calculateBounceFromDamping]
    norm_num [Real.sqrt_one, SpringModel.mk.injEq]
  · norm_num

/-- C9 amended: every model produced by the resolver on the preset path or
on the duration-and-bounce path has bounce in `[-1, 1]` (the preset table
only holds such values, and the duration-and-bounce path clamps); the
physical-parameter path does not clamp. -/
theorem resolver_bounce_in_range :
    (∀ (name : String) (model : SpringModel),
      resolveSpringModel (.preset name) = .ok model →
        -1 ≤ model.bounce ∧ model.bounce ≤ 1) ∧
    (∀ (ma st da du bo : Option ℝ) (model : SpringModel),
      ¬(ma.isSome ∧ st.isSome ∧ da.isSome) →
      resolveSpringModel (.obj ma st da du bo) = .ok model →
        -1 ≤ model.bounce ∧ model.bounce ≤ 1) := by
  constructor
  · intro name model h
    simp only [resolveSpringModel, PRESETS] at h
    split_ifs at h
    all_goals
      first
        | exact Except.noConfusion h
        | (injection h with h
           rw [← h]
           constructor <;> norm_num [initFromDurationAndBounce])
  · intro ma st da du bo model hnot h
    have solve : ∀ (model : SpringModel),
        initFromDurationAndBounce (orDefault du 0.5) (clampBounce (orDefault bo 0))
          = model →
        -1 ≤ model.bounce ∧ model.bounce ≤ 1 := by
      intro model hh
      rw [← hh]
      exact clampBounce_mem _
    rcases ma with _ | m
    · rcases st with _ | s <;> rcases da with _ | d <;>
        exact solve model (Except.ok.inj h)
    · rcases st with _ | s
      · rcases da with _ | d <;> exact solve model (Except.ok.inj h)
      · rcases da with _ | d
        · exact solve model (Except.ok.inj h)
        · exact absurd ⟨rfl, rfl, rfl⟩ hnot

/-- Witness for the amended C9: the all-defaults config resolves to a model
whose bounce lies in `[-1, 1]`. -/
theorem resolver_bounce_in_range_witness :
    -1 ≤ (initFromDurationAndBounce (orDefault none 0.5)
            (clampBounce (orDefault none 0))).bounce ∧
    (initFromDurationAndBounce (orDefault none 0.5)
        (clampBounce (orDefault none 0))).bounce ≤ 1 :=
  resolver_bounce_in_range.2 none none none none none _ (by simp) rfl

end SpringAnimations
